import Mathlib

/-!
Verification development for the logrus_mail package (mail.go): two email
hooks for the logrus logging framework (an unauthenticated hook that keeps
one SMTP session, and an authenticated hook that sends fire-and-forget),
plus a shared message builder that renders a log entry into an
email-shaped payload with a synthesized stack trace.

Shallow embedding conventions:
- Machine state that the Go code reads from the outside world (network
  reachability, SMTP server responses) is threaded through an explicit
  NetEnv value.
- The Go runtime call stack is modelled as a list of Frame values.  The
  Frame list handed to the message builder is the goroutine stack at the
  instant runtime.Callers executes inside createMessage: index 0 is the
  frame of runtime.Callers itself, index 1 the frame of createMessage,
  index 2 its caller, and so on.  Symbol resolution (runtime.FuncForPC)
  is part of the Frame value: fn is none exactly when FuncForPC returns
  nil for that pc.
- Pointers that may be nil (the *mail.Address fields of MailAuthHook) are
  Option values; a nil dereference is modelled by the dereferencing
  function returning none.
- External collaborators (net/mail address parsing, encoding/json,
  net/smtp, time formatting) are modelled from their interfaces as used
  by mail.go; each such model is marked in its doc comment.
-/

set_option linter.unusedVariables false
set_option maxRecDepth 8192

/-- Logrus severity levels, ordered as in the logrus package. -/
inductive Level where
  | panic
  | fatal
  | error
  | warn
  | info
  | debug
  deriving DecidableEq

/-- Modelled collaborator: logrus Level.String, the display name of a severity. -/
def levelString : Level → String
  | .panic => "panic"
  | .fatal => "fatal"
  | .error => "error"
  | .warn => "warning"
  | .info => "info"
  | .debug => "debug"

/-- A wall-clock timestamp, the components read by the layout string 20060102 15:04:05. -/
structure GoTime where
  year : Nat
  month : Nat
  day : Nat
  hour : Nat
  minute : Nat
  second : Nat
  deriving DecidableEq

/-- A JSON-encodable (or not) structured-field value, as stored in logrus Entry.Data.
junsupported stands for values encoding/json rejects (channels, functions, ...). -/
inductive JVal where
  | jstr (s : String)
  | jint (n : Int)
  | jbool (b : Bool)
  | jnull
  | junsupported
  deriving DecidableEq

/-- The structured-field mapping of a log entry (logrus Fields).  Keys are
assumed distinct, as in the Go map it models. -/
abbrev Fields := List (String × JVal)

/-- A logrus log entry: the fields of logrus.Entry read by mail.go. -/
structure Entry where
  time : GoTime
  level : Level
  message : String
  data : Fields
  deriving DecidableEq

/-- Resolution data for one program counter: what runtime.FuncForPC plus
Name, Entry and FileLine yield. -/
structure FuncInfo where
  name : String
  entry : Nat
  file : String
  line : Nat
  deriving DecidableEq

/-- One stack frame: its program counter and its resolution (none when
runtime.FuncForPC returns nil for this pc). -/
structure Frame where
  pc : Nat
  fn : Option FuncInfo
  deriving DecidableEq

/-- The Go error values that can flow out of the functions of mail.go. -/
inductive GoError where
  | dialError
  | parseError (input : String)
  | protocolError (step : String)
  | dataError
  | writeError
  | jsonUnsupported
  deriving DecidableEq

/-- Modelled collaborator: net/mail.Address, a parsed RFC-5322 address with
a display name and a local@domain address component. -/
structure MailAddress where
  Name : String
  Address : String
  deriving DecidableEq

/-- Source constant MAX_DEPTH of mail.go. -/
def MAX_DEPTH : Nat := 100

/-- Source constant format of mail.go, the Go time layout used for the body timestamp. -/
def timeLayout : String := "20060102 15:04:05"

/-- Two-digit zero-padded decimal, the rendering of %02d for the frame index. -/
def pad2 (n : Nat) : String :=
  if n < 10 then "0" ++ toString n else toString n

/-- Four-digit zero-padded decimal (year component of the time layout). -/
def pad4 (n : Nat) : String :=
  if n < 10 then "000" ++ toString n
  else if n < 100 then "00" ++ toString n
  else if n < 1000 then "0" ++ toString n
  else toString n

/-- Modelled collaborator: entry.Time.Format applied to the fixed layout
20060102 15:04:05 of mail.go. -/
def goFormatTime (t : GoTime) : String :=
  pad4 t.year ++ pad2 t.month ++ pad2 t.day ++ " " ++
  pad2 t.hour ++ ":" ++ pad2 t.minute ++ ":" ++ pad2 t.second

/-- Eight-digit zero-padded lowercase hexadecimal, the rendering of %08x. -/
def hex8 (n : Nat) : String :=
  let ds := Nat.toDigits 16 n
  String.mk (List.replicate (8 - ds.length) '0' ++ ds)

/-- Modelled collaborator: the JSON string escaper of encoding/json,
restricted to the escapes our claims exercise (quote and backslash). -/
def escapeJ (s : String) : String :=
  String.mk (s.data.foldr (fun c acc =>
    if c = '\x22' then '\\' :: '\x22' :: acc
    else if c = '\\' then '\\' :: '\\' :: acc
    else c :: acc) [])

/-- Modelled collaborator: encoding/json rendering of one field value.
junsupported values make marshalling fail, as encoding/json does for
channels and functions. -/
def jvalRender : JVal → Except GoError String
  | .jstr s => .ok ("\x22" ++ escapeJ s ++ "\x22")
  | .jint n => .ok (toString n)
  | .jbool b => .ok (cond b "true" "false")
  | .jnull => .ok "null"
  | .junsupported => .error .jsonUnsupported

/-- Key order used by encoding/json for maps: ascending key strings. -/
def fieldLe (a b : String × JVal) : Bool := !(decide (b.1 < a.1))

/-- Insertion step of the key sort. -/
def insertField (x : String × JVal) : Fields → Fields
  | [] => [x]
  | y :: ys => if fieldLe x y then x :: y :: ys else y :: insertField x ys

/-- Modelled collaborator: the ascending key sort encoding/json applies to maps. -/
def sortFields : Fields → Fields
  | [] => []
  | x :: xs => insertField x (sortFields xs)

/-- Modelled collaborator: json.MarshalIndent(entry.Data, two-empty-quotes, tab) as
called by createMessage - an object with tab-indented members in ascending
key order, failing when any value is unencodable. -/
def marshalIndent (fs : Fields) : Except GoError String :=
  match (sortFields fs).mapM (fun kv =>
    (jvalRender kv.2).map (fun r => "\t\x22" ++ escapeJ kv.1 ++ "\x22: " ++ r)) with
  | .error e => .error e
  | .ok [] => .ok "\x7b\x7d"
  | .ok items => .ok ("\x7b\n" ++ String.intercalate ",\n" items ++ "\n\x7d")

/-- The five lines createMessage appends for one resolved stack frame. -/
def frameText (i : Nat) (fr : Frame) (info : FuncInfo) : String :=
  "Frame " ++ pad2 i ++ ":\r\n" ++
  "\tFile: " ++ info.file ++ "\r\n" ++
  "\tFunction: " ++ info.name ++ "\r\n" ++
  "\tLine: " ++ toString info.line ++ "\r\n" ++
  "\tPC/Entry: 0x" ++ hex8 fr.pc ++ "/0x" ++ hex8 info.entry ++ "\r\n"

/-- The frame loop of createMessage: walk the captured pcs in order,
breaking (before emitting anything) at the first pc whose resolution fails. -/
def traceLoop : Nat → List Frame → String
  | _, [] => ""
  | i, fr :: rest =>
    match fr.fn with
    | none => ""
    | some info => frameText i fr info ++ traceLoop (i + 1) rest

/-- The frames the loop actually emits: the longest resolvable prefix. -/
def framesOf : List Frame → List Frame
  | [] => []
  | fr :: rest =>
    match fr.fn with
    | none => []
    | some _ => fr :: framesOf rest

/-- The captured pc window of createMessage: runtime.Callers(1, callers)
with a buffer of MAX_DEPTH+1 entries drops the frame of runtime.Callers
itself (skip = 1) and records at most MAX_DEPTH+1 frames. -/
def capturedFrames (stack : List Frame) : List Frame :=
  (stack.drop 1).take (MAX_DEPTH + 1)

/-- The stack-trace section of createMessage for a given goroutine stack. -/
def stackTrace (stack : List Frame) : String :=
  traceLoop 0 (capturedFrames stack)

/-- Message assembly of createMessage, parameterized by the already-rendered
fields text: trace section, subject, body and conditional headers exactly as
the source concatenates them. -/
def messageWithFields (entry : Entry) (appname fromAddr toAddr : String)
    (stack : List Frame) (fields : String) : String :=
  let trace := stackTrace stack
  let subject := appname ++ " - " ++ levelString entry.level
  let body := goFormatTime entry.time ++ " - " ++ entry.message ++ "\r\n\r\n" ++
    trace ++ "\r\n\r\nData:\r\n\r\n" ++ fields
  (if fromAddr ≠ "" then "From: " ++ fromAddr ++ "\r\n" else "") ++
  (if toAddr ≠ "" then "To: " ++ toAddr ++ "\r\n" else "") ++
  ("Subject: " ++ subject ++ "\r\n\r\n" ++ body ++ "\r\n\r\n")

/-- createMessage of mail.go: builds the full buffer, discarding any JSON
marshalling error (fields, _ := json.MarshalIndent renders as empty text on
error, since Sprintf of a nil byte slice is empty). -/
def createMessage (entry : Entry) (appname fromAddr toAddr : String)
    (stack : List Frame) : String :=
  messageWithFields entry appname fromAddr toAddr stack
    (match marshalIndent entry.data with
     | .ok s => s
     | .error _ => "")

/-- Modelled collaborator: net/mail.ParseAddress - accepts a plain
local@domain shape (nonempty local part and domain, no spaces, no line
breaks) and yields the structured address; rejects anything else. -/
def parseAddress (s : String) : Except GoError MailAddress :=
  if (s.data.count '@' == 1) && (s.data.head? != some '@') &&
      (s.data.getLast? != some '@') && !(s.data.contains ' ') &&
      !(s.data.contains '\r') && !(s.data.contains '\n') then
    .ok { Name := "", Address := s }
  else
    .error (.parseError s)

/-- The stateful SMTP session owned by a MailHook, abstracted to the
outcomes its Data and write calls will report. -/
structure SmtpClient where
  dataErr : Option GoError
  writeErr : Option GoError
  deriving DecidableEq

/-- MailHook of mail.go: app name plus the one persistent SMTP session.
Note the struct stores no addresses; sender and recipient are pinned on
the session at construction. -/
structure MailHook where
  AppName : String
  c : SmtpClient
  deriving DecidableEq

/-- MailAuthHook of mail.go: plain configuration copied at construction.
From and To are pointers in Go, hence Option here. -/
structure MailAuthHook where
  AppName : String
  Host : String
  Port : Nat
  From : Option MailAddress
  To : Option MailAddress
  Username : String
  Password : String
  deriving DecidableEq

/-- The outside world as the constructors observe it: whether dial and the
probe succeed, whether the server accepts the MAIL and RCPT declarations,
and the outcomes the resulting session will later report. -/
structure NetEnv where
  dialOk : Bool
  mailOk : Bool
  rcptOk : Bool
  probeOk : Bool
  dataErr : Option GoError
  writeErr : Option GoError
  deriving DecidableEq

/-- Result of NewMailHook: the returned hook or error, plus how many network
connections were opened and neither closed nor handed to the caller. -/
structure MailHookResult where
  hook : Except GoError MailHook
  leaked : Nat

/-- Result of NewMailAuthHook, with the same leak accounting. -/
structure AuthHookResult where
  hook : Except GoError MailAuthHook
  leaked : Nat

/-- NewMailHook of mail.go: dial, parse both addresses, declare sender and
recipient on the open session.  On every error path after a successful dial
the Go code drops the smtp.Client without closing it, so that connection is
counted as leaked. -/
def NewMailHook (env : NetEnv) (appname host : String) (port : Nat)
    (fromAddr toAddr : String) : MailHookResult :=
  if env.dialOk then
    match parseAddress fromAddr with
    | .error e => { hook := .error e, leaked := 1 }
    | .ok _sender =>
      match parseAddress toAddr with
      | .error e => { hook := .error e, leaked := 1 }
      | .ok _recipient =>
        if env.mailOk then
          if env.rcptOk then
            { hook := .ok { AppName := appname,
                            c := { dataErr := env.dataErr, writeErr := env.writeErr } },
              leaked := 0 }
          else { hook := .error (.protocolError "RCPT"), leaked := 1 }
        else { hook := .error (.protocolError "MAIL"), leaked := 1 }
  else { hook := .error .dialError, leaked := 0 }

/-- NewMailAuthHook of mail.go: 3-second reachability probe (closed by a
defer on every path), parse both addresses, store everything verbatim. -/
def NewMailAuthHook (env : NetEnv) (appname host : String) (port : Nat)
    (fromAddr toAddr username password : String) : AuthHookResult :=
  if env.probeOk then
    match parseAddress fromAddr with
    | .error e => { hook := .error e, leaked := 0 }
    | .ok sender =>
      match parseAddress toAddr with
      | .error e => { hook := .error e, leaked := 0 }
      | .ok receiver =>
        { hook := .ok { AppName := appname, Host := host, Port := port,
                        From := some sender, To := some receiver,
                        Username := username, Password := password },
          leaked := 0 }
  else { hook := .error .dialError, leaked := 0 }

/-- Result of MailHook.Fire: the payload written onto the session's data
channel (none when the Data call already failed) and the returned error. -/
structure HookFireResult where
  written : Option String
  ret : Option GoError
  deriving DecidableEq

/-- MailHook.Fire of mail.go: request the data channel, build the message
with EMPTY from and to arguments, write it, return any error. -/
def mailHookFire (hook : MailHook) (entry : Entry) (stack : List Frame) :
    HookFireResult :=
  match hook.c.dataErr with
  | some e => { written := none, ret := some e }
  | none =>
    let message := createMessage entry hook.AppName "" "" stack
    match hook.c.writeErr with
    | some e => { written := some message, ret := some e }
    | none => { written := some message, ret := none }

/-- The one-shot smtp.SendMail invocation the detached goroutine of
MailAuthHook.Fire performs: target address, plain-auth token parts,
envelope sender and recipients, and the full payload. -/
structure SendMailCall where
  addr : String
  authUser : String
  authPass : String
  authHost : String
  envFrom : String
  envTo : List String
  msg : String
  deriving DecidableEq

/-- Result of MailAuthHook.Fire: the dispatched detached delivery, the
outcome that delivery will eventually have (observed by nobody), and the
error Fire itself returns. -/
structure AuthFireResult where
  spawned : SendMailCall
  deliveryOutcome : Option GoError
  ret : Option GoError
  deriving DecidableEq

/-- MailAuthHook.Fire of mail.go: dereference hook.From and hook.To (none
result models the nil-pointer panic), build the message synchronously from
the caller's stack, dispatch the SendMail call as a goroutine whose
eventual outcome sendErr is ignored, and return nil. -/
def mailAuthHookFire (hook : MailAuthHook) (entry : Entry)
    (stack : List Frame) (sendErr : Option GoError) : Option AuthFireResult :=
  match hook.From, hook.To with
  | some sender, some receiver =>
    let message := createMessage entry hook.AppName sender.Address receiver.Address stack
    some { spawned := { addr := hook.Host ++ ":" ++ toString hook.Port,
                        authUser := hook.Username,
                        authPass := hook.Password,
                        authHost := hook.Host,
                        envFrom := sender.Address,
                        envTo := [receiver.Address],
                        msg := message },
           deliveryOutcome := sendErr,
           ret := none }
  | _, _ => none

/-- MailHook.Levels of mail.go. -/
def MailHook.Levels (hook : MailHook) : List Level := [.panic, .fatal, .error]

/-- MailAuthHook.Levels of mail.go. -/
def MailAuthHook.Levels (hook : MailAuthHook) : List Level := [.panic, .fatal, .error]

/-- Split a character list at CRLF separators, accumulating the current line. -/
def linesAux : List Char → List Char → List String
  | acc, [] => [String.mk acc.reverse]
  | acc, '\r' :: '\n' :: cs => String.mk acc.reverse :: linesAux [] cs
  | acc, c :: cs => linesAux (c :: acc) cs

/-- The CRLF-separated lines of a character list. -/
def linesCRLF (cs : List Char) : List String := linesAux [] cs

/-- The header block of a rendered message: its CRLF-separated lines up to
the first blank line, per email conventions. -/
def headerLines (s : String) : List String :=
  (linesCRLF s.data).takeWhile (fun l => l != "")

/-- The body lines of a rendered message: everything after the first blank line. -/
def bodyLines (s : String) : List String :=
  ((linesCRLF s.data).dropWhile (fun l => l != "")).drop 1

/-- A fully working environment: reachable host, accepting server, healthy session. -/
def envUp : NetEnv :=
  { dialOk := true, mailOk := true, rcptOk := true, probeOk := true,
    dataErr := none, writeErr := none }

/-- The concrete scenario entry: 2024-01-01T00:00:00Z, Error, disk full,
one structured field volume=/data. -/
def entryDiskFull : Entry :=
  { time := { year := 2024, month := 1, day := 1, hour := 0, minute := 0, second := 0 },
    level := .error, message := "disk full",
    data := [("volume", .jstr "/data")] }

/-- An entry whose structured fields cannot be marshalled to JSON. -/
def entryUnsupported : Entry := { entryDiskFull with data := [("ch", JVal.junsupported)] }

/-- A concrete unauthenticated hook with a healthy session. -/
def plainHook : MailHook := { AppName := "svc", c := { dataErr := none, writeErr := none } }

/-- A concrete authenticated hook as NewMailAuthHook builds it. -/
def authHook0 : MailAuthHook :=
  { AppName := "app", Host := "h", Port := 25,
    From := some { Name := "", Address := "a@b" },
    To := some { Name := "", Address := "c@d" },
    Username := "u", Password := "p" }

/-- A fully resolvable stack frame. -/
def okFrame : Frame :=
  { pc := 1, fn := some { name := "main.main", entry := 16, file := "main.go", line := 10 } }

/-- A deep call stack: 103 resolvable frames (runtime.Callers frame,
createMessage frame, and 101 callers above them). -/
def bigStack : List Frame := List.replicate 103 okFrame

/-- Appending strings concatenates their character data. -/
theorem data_append (s t : String) : (s ++ t).data = s.data ++ t.data := by
  cases s; cases t; rfl

/-- A string is determined by its character data. -/
theorem str_ext (s t : String) (h : s.data = t.data) : s = t := by
  cases s; cases t; exact congrArg String.mk h

/-- Rebuilding a string from its data is the identity. -/
theorem mk_data (s : String) : String.mk s.data = s := by
  cases s; rfl

/-- String append is associative. -/
theorem str_assoc (a b c : String) : a ++ b ++ c = a ++ (b ++ c) := by
  apply str_ext
  simp [data_append]

/-- The data of the CRLF literal. -/
theorem crlf_data : ("\r\n" : String).data = ['\r', '\n'] := rfl

/-- Stepping the line splitter over a non-CR character. -/
theorem linesAux_step_ne (acc : List Char) (c : Char) (cs : List Char) (h : c ≠ '\r') :
    linesAux acc (c :: cs) = linesAux (c :: acc) cs := by
  rw [linesAux.eq_def]
  split
  next heq => exact absurd heq (by simp)
  next cs2 heq =>
    injection heq with h1 h2
    exact absurd h1 h
  next =>
    rename_i c2 cs2 hno heq
    injection heq with h1 h2
    subst h1
    subst h2
    rfl

/-- The line splitter flushes the accumulator at a CRLF. -/
theorem linesAux_crlf (acc : List Char) (cs : List Char) :
    linesAux acc ('\r' :: '\n' :: cs) = String.mk acc.reverse :: linesAux [] cs := by
  rfl

/-- A CR-free chunk followed by CRLF becomes one whole line. -/
theorem linesAux_line (l : List Char) : ∀ (acc cs : List Char), '\r' ∉ l →
    linesAux acc (l ++ '\r' :: '\n' :: cs) = String.mk (acc.reverse ++ l) :: linesAux [] cs := by
  induction l with
  | nil =>
    intro acc cs _
    simpa using linesAux_crlf acc cs
  | cons c l ih =>
    intro acc cs h
    have hc : c ≠ '\r' := fun hh => h (hh ▸ List.mem_cons_self c l)
    have hl : '\r' ∉ l := fun hm => h (List.mem_cons_of_mem c hm)
    rw [List.cons_append, linesAux_step_ne acc c _ hc, ih (c :: acc) cs hl]
    simp

/-- Splitting a string that starts with a CR-free line and a CRLF yields
that line followed by the lines of the remainder. -/
theorem linesCRLF_line (line rest : String) (h : '\r' ∉ line.data) :
    linesCRLF (line ++ "\r\n" ++ rest).data = line :: linesCRLF rest.data := by
  have hd : (line ++ "\r\n" ++ rest).data = line.data ++ '\r' :: '\n' :: rest.data := by
    rw [data_append, data_append, crlf_data]
    simp
  rw [linesCRLF, hd, linesAux_line line.data [] rest.data h]
  simp [mk_data, linesCRLF]

/-- Header block of a message that starts with a CR-free nonempty line. -/
theorem headerLines_cons (line rest : String) (h : '\r' ∉ line.data)
    (hne : line.data ≠ []) :
    headerLines (line ++ "\r\n" ++ rest) = line :: headerLines rest := by
  unfold headerLines
  rw [linesCRLF_line line rest h, List.takeWhile_cons]
  have hb : (line != "") = true := by
    rw [bne_iff_ne]
    intro hh
    apply hne
    rw [hh]
  rw [hb]
  simp

/-- A message that opens with a blank line has an empty header block. -/
theorem headerLines_stop (rest : String) : headerLines ("\r\n" ++ rest) = [] := by
  unfold headerLines
  have hd : (("\r\n" : String) ++ rest).data = '\r' :: '\n' :: rest.data := by
    rw [data_append, crlf_data]
    rfl
  rw [hd, linesCRLF, linesAux_crlf]
  simp [List.takeWhile_cons]

/-- The severity display names contain no carriage return. -/
theorem levelString_no_cr (lv : Level) : '\r' ∉ (levelString lv).data := by
  cases lv <;> decide

/-- The data of the double-CRLF literal. -/
theorem crlf2_data : ("\r\n\r\n" : String).data = ['\r', '\n', '\r', '\n'] := rfl

/-- Prepending the empty string is the identity. -/
theorem str_empty_append (s : String) : "" ++ s = s := by
  apply str_ext
  rw [data_append]
  rfl

/-- Appending the empty string is the identity. -/
theorem str_append_empty (s : String) : s ++ "" = s := by
  apply str_ext
  rw [data_append]
  simp

/-- Appending to a nonempty string stays nonempty (at the data level). -/
theorem append_data_ne (pre v : String) (h : pre.data ≠ []) : (pre ++ v).data ≠ [] := by
  rw [data_append]
  intro hh
  exact h (List.append_eq_nil.mp hh).1

/-- Appending two CR-free strings stays CR-free. -/
theorem no_cr_append (pre v : String) (hp : '\r' ∉ pre.data) (hv : '\r' ∉ v.data) :
    '\r' ∉ (pre ++ v).data := by
  rw [data_append]
  intro hm
  rcases List.mem_append.mp hm with h1 | h2
  exacts [hp h1, hv h2]

/-- The subject string built by createMessage is CR-free when the app name is. -/
theorem subject_no_cr (a : String) (lv : Level) (ha : '\r' ∉ a.data) :
    '\r' ∉ (a ++ " - " ++ levelString lv).data :=
  no_cr_append _ _ (no_cr_append a " - " ha (by decide)) (levelString_no_cr lv)

/-- One labelled header line (label, value, CRLF) prepends label-plus-value
to the header block of the remainder. -/
theorem headerLines_label (pre v rest : String) (hp : '\r' ∉ pre.data)
    (hpne : pre.data ≠ []) (hv : '\r' ∉ v.data) :
    headerLines (pre ++ v ++ "\r\n" ++ rest) = (pre ++ v) :: headerLines rest :=
  headerLines_cons (pre ++ v) rest (no_cr_append pre v hp hv) (append_data_ne pre v hpne)

/-- The subject line followed by the blank separator closes the header block. -/
theorem headerLines_subject_tail (subj body : String) (hs : '\r' ∉ subj.data) :
    headerLines ("Subject: " ++ subj ++ "\r\n\r\n" ++ body ++ "\r\n\r\n") =
      ["Subject: " ++ subj] := by
  have hsplit : "Subject: " ++ subj ++ "\r\n\r\n" ++ body ++ "\r\n\r\n" =
      ("Subject: " ++ subj) ++ "\r\n" ++ ("\r\n" ++ (body ++ "\r\n\r\n")) := by
    apply str_ext
    simp [data_append, crlf_data, crlf2_data]
  rw [hsplit,
    headerLines_cons _ _ (no_cr_append "Subject: " subj (by decide) hs)
      (append_data_ne "Subject: " subj (by decide)),
    headerLines_stop]

/-- messageWithFields, written out without let bindings. -/
theorem messageWithFields_eq (e : Entry) (a f t : String) (st : List Frame) (fl : String) :
    messageWithFields e a f t st fl =
      (if f ≠ "" then "From: " ++ f ++ "\r\n" else "") ++
      (if t ≠ "" then "To: " ++ t ++ "\r\n" else "") ++
      ("Subject: " ++ (a ++ " - " ++ levelString e.level) ++ "\r\n\r\n" ++
        (goFormatTime e.time ++ " - " ++ e.message ++ "\r\n\r\n" ++
          stackTrace st ++ "\r\n\r\nData:\r\n\r\n" ++ fl) ++ "\r\n\r\n") := rfl

/-- Header block of the assembled message: a From line exactly when the from
address is nonempty, a To line exactly when the to address is nonempty, and
always the subject line - provided the three caller-controlled header inputs
contain no carriage return. -/
theorem headerLines_messageWithFields (e : Entry) (a f t : String) (st : List Frame)
    (fl : String) (ha : '\r' ∉ a.data) (hf : '\r' ∉ f.data) (ht : '\r' ∉ t.data) :
    headerLines (messageWithFields e a f t st fl) =
      (if f = "" then [] else ["From: " ++ f]) ++
      (if t = "" then [] else ["To: " ++ t]) ++
      ["Subject: " ++ (a ++ " - " ++ levelString e.level)] := by
  rw [messageWithFields_eq]
  have hsubj := subject_no_cr a e.level ha
  by_cases hf0 : f = "" <;> by_cases ht0 : t = ""
  · rw [if_neg (fun hcon => hcon hf0), if_neg (fun hcon => hcon ht0),
      str_empty_append, str_empty_append, headerLines_subject_tail _ _ hsubj]
    simp [hf0, ht0]
  · rw [if_neg (fun hcon => hcon hf0), if_pos ht0, str_empty_append,
      headerLines_label "To: " t _ (by decide) (by decide) ht,
      headerLines_subject_tail _ _ hsubj]
    simp [hf0, ht0]
  · rw [if_pos hf0, if_neg (fun hcon => hcon ht0), str_append_empty,
      headerLines_label "From: " f _ (by decide) (by decide) hf,
      headerLines_subject_tail _ _ hsubj]
    simp [hf0, ht0]
  · rw [if_pos hf0, if_pos ht0, str_assoc,
      headerLines_label "From: " f _ (by decide) (by decide) hf,
      headerLines_label "To: " t _ (by decide) (by decide) ht,
      headerLines_subject_tail _ _ hsubj]
    simp [hf0, ht0]

/-- The emitted frames are the longest resolvable prefix of the captured window. -/
theorem framesOf_eq_takeWhile (cs : List Frame) :
    framesOf cs = cs.takeWhile (fun fr => fr.fn.isSome) := by
  induction cs with
  | nil => rfl
  | cons fr rest ih =>
    cases hfn : fr.fn with
    | none => simp [framesOf, List.takeWhile_cons, hfn]
    | some info => simp [framesOf, List.takeWhile_cons, hfn, ih]

/-- The rendered trace text is fully determined by the emitted frames: the
loop renders nothing for the unresolvable frame it breaks on, nor for
anything after it. -/
theorem traceLoop_framesOf (i : Nat) (cs : List Frame) :
    traceLoop i cs = traceLoop i (framesOf cs) := by
  induction cs generalizing i with
  | nil => rfl
  | cons fr rest ih =>
    cases hfn : fr.fn with
    | none => simp [traceLoop, framesOf, hfn]
    | some info => simp [traceLoop, framesOf, hfn, ih]

/-- The loop emits no more frames than were captured. -/
theorem framesOf_length_le (cs : List Frame) : (framesOf cs).length ≤ cs.length := by
  rw [framesOf_eq_takeWhile]
  exact (List.takeWhile_sublist _).length_le

/-- Claim C1 (confirmed): for every log entry, MailAuthHook.Fire builds the
rendered message synchronously from the caller's stack state before
dispatching delivery as a detached SendMail call, and Fire returns success
(nil error) whatever outcome sendErr the background delivery later has; no
delivery error is surfaced from Fire. -/
theorem mailAuthHookFire_fire_and_forget (hook : MailAuthHook) (entry : Entry)
    (stack : List Frame) (sendErr : Option GoError) (sender receiver : MailAddress)
    (hFrom : hook.From = some sender) (hTo : hook.To = some receiver) :
    ∃ r, mailAuthHookFire hook entry stack sendErr = some r ∧
      r.ret = none ∧
      r.deliveryOutcome = sendErr ∧
      r.spawned.msg = createMessage entry hook.AppName sender.Address receiver.Address stack ∧
      r.spawned.envFrom = sender.Address ∧
      r.spawned.envTo = [receiver.Address] := by
  unfold mailAuthHookFire
  rw [hFrom, hTo]
  exact ⟨_, rfl, rfl, rfl, rfl, rfl, rfl⟩

/-- Witness for C1 at a concrete hook, entry, empty stack and a delivery
that will eventually fail: Fire still returns nil. -/
theorem mailAuthHookFire_fire_and_forget_w :
    ∃ r, mailAuthHookFire authHook0 entryDiskFull [] (some GoError.dialError) = some r ∧
      r.ret = none ∧
      r.deliveryOutcome = some GoError.dialError ∧
      r.spawned.msg = createMessage entryDiskFull "app" "a@b" "c@d" [] ∧
      r.spawned.envFrom = "a@b" ∧
      r.spawned.envTo = ["c@d"] :=
  mailAuthHookFire_fire_and_forget authHook0 entryDiskFull [] (some GoError.dialError)
    { Name := "", Address := "a@b" } { Name := "", Address := "c@d" } rfl rfl

/-- Claim C2 counterexample: the payload MailHook.Fire writes contains zero
From header lines and zero To header lines - the hook stores no addresses
and hands empty strings to the builder - refuting that the stored sender
and recipient addresses appear as the From and To headers. -/
theorem mailHookFire_headers_cex :
    ((mailHookFire plainHook entryDiskFull []).written.map
      (fun m => ((headerLines m).countP (fun l => ("From: ".data).isPrefixOf l.data),
                 (headerLines m).countP (fun l => ("To: ".data).isPrefixOf l.data)))) =
      some (0, 0) := by decide

/-- Claim C2 (corrected): MailHook.Fire builds the rendered message with
empty from and to arguments - MailHook stores no addresses, the sender and
recipient having been pinned on the SMTP session at construction - so any
payload it writes has a header block consisting of exactly the Subject
line (given a CR-free app name). -/
theorem mailHookFire_empty_headers (hook : MailHook) (entry : Entry) (stack : List Frame)
    (m : String) (ha : '\r' ∉ hook.AppName.data)
    (hw : (mailHookFire hook entry stack).written = some m) :
    headerLines m = ["Subject: " ++ (hook.AppName ++ " - " ++ levelString entry.level)] := by
  have hm : m = createMessage entry hook.AppName "" "" stack := by
    unfold mailHookFire at hw
    cases hde : hook.c.dataErr with
    | some e => rw [hde] at hw; simp at hw
    | none =>
      rw [hde] at hw
      cases hwe : hook.c.writeErr with
      | some e => rw [hwe] at hw; simp at hw; exact hw.symm
      | none => rw [hwe] at hw; simp at hw; exact hw.symm
  subst hm
  unfold createMessage
  rw [headerLines_messageWithFields entry hook.AppName "" "" stack _ ha (by decide) (by decide)]
  simp

/-- Witness for the corrected C2 at the concrete hook and entry. -/
theorem mailHookFire_empty_headers_w :
    headerLines (createMessage entryDiskFull "svc" "" "" []) = ["Subject: svc - error"] := by
  have h := mailHookFire_empty_headers plainHook entryDiskFull []
    (createMessage entryDiskFull "svc" "" "" []) (by decide) rfl
  exact h

/-- Claim C3 counterexample: with 103 resolvable frames on the goroutine
stack the builder emits 101 frames - the capture buffer has MAX_DEPTH+1
slots and the loop runs over everything captured - refuting the claimed
100-frame bound. -/
theorem stackTrace_max_frames_cex :
    ¬ ((framesOf (capturedFrames bigStack)).length ≤ 100) := by decide

/-- Claim C3 (corrected): the trace section never exceeds MAX_DEPTH + 1 =
101 frames; the emitted frames are exactly the longest resolvable prefix of
the captured window, which starts at the builder's own frame (the capture
skips only the frame of runtime.Callers itself); and the rendered text
equals the rendering of that prefix alone, so nothing partial is emitted
for the first unresolvable frame or anything after it. -/
theorem stackTrace_bounds (stack : List Frame) :
    (framesOf (capturedFrames stack)).length ≤ MAX_DEPTH + 1 ∧
    framesOf (capturedFrames stack) = (capturedFrames stack).takeWhile (fun fr => fr.fn.isSome) ∧
    stackTrace stack = traceLoop 0 (framesOf (capturedFrames stack)) := by
  refine ⟨?_, framesOf_eq_takeWhile _, traceLoop_framesOf 0 _⟩
  calc (framesOf (capturedFrames stack)).length
      ≤ (capturedFrames stack).length := framesOf_length_le _
    _ ≤ MAX_DEPTH + 1 := (stack.drop 1).length_take_le _

/-- Claim C4 counterexample: with a reachable and fully accepting server
but a malformed from address, NewMailHook fails with the address parse
error yet leaves its freshly dialed SMTP connection open (leaked = 1),
refuting that no network resource is left open on address-format failure. -/
theorem newMailHook_leak_cex :
    (NewMailHook envUp "app" "h" 25 "bad" "c@d").hook = .error (.parseError "bad") ∧
    (NewMailHook envUp "app" "h" 25 "bad" "c@d").leaked ≠ 0 :=
  ⟨rfl, by decide⟩

/-- Claim C4 (corrected): construction succeeds iff both addresses parse,
given a reachable host (and, for NewMailHook, a server accepting the MAIL
and RCPT declarations); a malformed address makes construction fail with
that address's parse error; NewMailAuthHook closes its probe connection so
no network resource stays open, but NewMailHook leaves its dialed SMTP
connection open (leaked) whenever an address fails to parse. -/
theorem hook_construction_validation (env : NetEnv) (a h : String) (p : Nat)
    (f t u pw : String) :
    (env.probeOk = true →
      ((NewMailAuthHook env a h p f t u pw).hook.isOk = true ↔
        ((parseAddress f).isOk = true ∧ (parseAddress t).isOk = true)) ∧
      (NewMailAuthHook env a h p f t u pw).leaked = 0 ∧
      (∀ e, parseAddress f = .error e →
        (NewMailAuthHook env a h p f t u pw).hook = .error e) ∧
      (∀ e, (parseAddress f).isOk = true → parseAddress t = .error e →
        (NewMailAuthHook env a h p f t u pw).hook = .error e)) ∧
    (env.dialOk = true → env.mailOk = true → env.rcptOk = true →
      ((NewMailHook env a h p f t).hook.isOk = true ↔
        ((parseAddress f).isOk = true ∧ (parseAddress t).isOk = true))) ∧
    (env.dialOk = true →
      (∀ e, parseAddress f = .error e →
        (NewMailHook env a h p f t).hook = .error e ∧
        (NewMailHook env a h p f t).leaked = 1) ∧
      (∀ e, (parseAddress f).isOk = true → parseAddress t = .error e →
        (NewMailHook env a h p f t).hook = .error e ∧
        (NewMailHook env a h p f t).leaked = 1)) := by
  refine ⟨fun hprobe => ?_, fun hd hm hr => ?_, fun hd => ?_⟩
  · cases hpf : parseAddress f with
    | error e1 => simp [NewMailAuthHook, hprobe, hpf, Except.isOk, Except.toBool]
    | ok s1 =>
      cases hpt : parseAddress t with
      | error e2 => simp [NewMailAuthHook, hprobe, hpf, hpt, Except.isOk, Except.toBool]
      | ok s2 => simp [NewMailAuthHook, hprobe, hpf, hpt, Except.isOk, Except.toBool]
  · cases hpf : parseAddress f with
    | error e1 => simp [NewMailHook, hd, hm, hr, hpf, Except.isOk, Except.toBool]
    | ok s1 =>
      cases hpt : parseAddress t with
      | error e2 => simp [NewMailHook, hd, hm, hr, hpf, hpt, Except.isOk, Except.toBool]
      | ok s2 => simp [NewMailHook, hd, hm, hr, hpf, hpt, Except.isOk, Except.toBool]
  · constructor
    · intro e hpe
      simp [NewMailHook, hd, hpe]
    · intro e hOk hpt2
      cases hpf2 : parseAddress f with
      | error e1 => rw [hpf2] at hOk; simp [Except.isOk, Except.toBool] at hOk
      | ok s1 => simp [NewMailHook, hd, hpf2, hpt2]

/-- Witness for the corrected C4: a fully reachable environment with two
well-formed addresses constructs the authenticated hook with nothing
leaked, while the same environment with a malformed from address makes
NewMailHook leak its dialed connection. -/
theorem hook_construction_validation_w :
    (NewMailAuthHook envUp "app" "h" 25 "a@b" "c@d" "u" "p").hook.isOk = true ∧
    (NewMailAuthHook envUp "app" "h" 25 "a@b" "c@d" "u" "p").leaked = 0 ∧
    (NewMailHook envUp "app" "h" 25 "bad" "c@d").leaked = 1 := by
  have hgood := hook_construction_validation envUp "app" "h" 25 "a@b" "c@d" "u" "p"
  have hbad := hook_construction_validation envUp "app" "h" 25 "bad" "c@d" "u" "p"
  refine ⟨(hgood.1 rfl).1.mpr ⟨rfl, rfl⟩, (hgood.1 rfl).2.1, ?_⟩
  exact (((hbad.2.2) rfl).1 (GoError.parseError "bad") rfl).2

/-- Claim C5 counterexample: a nonempty fromAddress containing a raw CRLF
forges a second From header line in the payload, refuting that a nonempty
fromAddress always yields exactly one From header. -/
theorem createMessage_header_injection_cex :
    ("a@b\r\nFrom: c@d" ≠ "") ∧
    ¬ ((headerLines (createMessage entryDiskFull "app" "a@b\r\nFrom: c@d" "x@y" [])).countP
        (fun l => ("From: ".data).isPrefixOf l.data) = 1) := by decide

/-- Claim C5 (corrected): provided appName, fromAddress and toAddress
contain no carriage return, the header block of the rendered message is
exactly: a From line with the given value iff fromAddress is nonempty, then
a To line with the given value iff toAddress is nonempty, then always the
single Subject line reading appName, a dash, and the severity name. -/
theorem createMessage_headers (e : Entry) (a f t : String) (st : List Frame)
    (ha : '\r' ∉ a.data) (hf : '\r' ∉ f.data) (ht : '\r' ∉ t.data) :
    headerLines (createMessage e a f t st) =
      (if f = "" then [] else ["From: " ++ f]) ++
      (if t = "" then [] else ["To: " ++ t]) ++
      ["Subject: " ++ (a ++ " - " ++ levelString e.level)] := by
  unfold createMessage
  exact headerLines_messageWithFields e a f t st _ ha hf ht

/-- Witness for the corrected C5 at concrete CR-free inputs. -/
theorem createMessage_headers_w :
    headerLines (createMessage entryDiskFull "svc" "a@b" "c@d" []) =
      ["From: a@b", "To: c@d", "Subject: svc - error"] := by
  have h := createMessage_headers entryDiskFull "svc" "a@b" "c@d" []
    (by decide) (by decide) (by decide)
  rw [if_neg (by decide), if_neg (by decide)] at h
  exact h

/-- Claim C6 (confirmed): for the concrete event (2024-01-01T00:00:00Z,
Error, disk full, volume=/data) and appName svc, the Subject line reads
svc - error, the first body line reads 20240101 00:00:00 - disk full, and
the Data section contains the tab-indented JSON rendering of the fields. -/
theorem createMessage_scenario :
    headerLines (createMessage entryDiskFull "svc" "" "" []) = ["Subject: svc - error"] ∧
    (bodyLines (createMessage entryDiskFull "svc" "" "" [])).head? =
      some "20240101 00:00:00 - disk full" ∧
    List.IsInfix ("Data:\r\n\r\n\x7b\n\t\x22volume\x22: \x22/data\x22\n\x7d").data
      (createMessage entryDiskFull "svc" "" "" []).data := by decide

/-- Claim C7 (confirmed): when the structured fields cannot be rendered as
JSON, the builder still returns the complete message, assembled with an
empty fields section; the rendering error is discarded and never reaches
the caller of Fire. -/
theorem createMessage_fields_error_discarded (e : Entry) (a f t : String)
    (st : List Frame) (hfail : (marshalIndent e.data).isOk = false) :
    createMessage e a f t st = messageWithFields e a f t st "" := by
  unfold createMessage
  cases hm : marshalIndent e.data with
  | ok s => rw [hm] at hfail; simp [Except.isOk, Except.toBool] at hfail
  | error err => simp [hm]

/-- Witness for C7: an entry whose field value is unencodable makes the
marshaller fail, and the builder returns the message with empty fields. -/
theorem createMessage_fields_error_discarded_w :
    (marshalIndent entryUnsupported.data).isOk = false ∧
    createMessage entryUnsupported "svc" "" "" [] =
      messageWithFields entryUnsupported "svc" "" "" [] "" :=
  ⟨rfl, createMessage_fields_error_discarded entryUnsupported "svc" "" "" [] rfl⟩

/-- Claim C8 (confirmed): for both hook variants, the reported
applicable-severity set is exactly Panic, Fatal, Error: a severity is a
member iff it is one of those three. -/
theorem hook_levels_exact (h1 : MailHook) (h2 : MailAuthHook) (lv : Level) :
    (lv ∈ h1.Levels ↔ (lv = .panic ∨ lv = .fatal ∨ lv = .error)) ∧
    (lv ∈ h2.Levels ↔ (lv = .panic ∨ lv = .fatal ∨ lv = .error)) := by
  cases lv <;> simp [MailHook.Levels, MailAuthHook.Levels]

/-- Claim C9 (confirmed): the message builder is deterministic - two
invocations agreeing on the stack state, the entry timestamp, level,
message and fields, the appName and the two address strings produce
identical buffers. -/
theorem createMessage_deterministic (e1 e2 : Entry) (a f t : String)
    (st1 st2 : List Frame) (htime : e1.time = e2.time) (hlv : e1.level = e2.level)
    (hmsg : e1.message = e2.message) (hdata : e1.data = e2.data) (hst : st1 = st2) :
    createMessage e1 a f t st1 = createMessage e2 a f t st2 := by
  cases e1
  cases e2
  dsimp only at htime hlv hmsg hdata
  subst htime
  subst hlv
  subst hmsg
  subst hdata
  subst hst
  rfl

/-- Witness for C9 at concrete equal inputs. -/
theorem createMessage_deterministic_w :
    createMessage entryDiskFull "svc" "a@b" "c@d" [] =
      createMessage entryDiskFull "svc" "a@b" "c@d" [] :=
  createMessage_deterministic entryDiskFull entryDiskFull "svc" "a@b" "c@d" [] []
    rfl rfl rfl rfl rfl

/-- Claim C10 (confirmed): every hook NewMailAuthHook returns successfully
has non-nil From and To and stores Host, Port, Username and Password
verbatim; consequently MailAuthHook.Fire on such a hook never hits the
nil-pointer dereference (modelled as Fire returning none). -/
theorem newMailAuthHook_fields_safe (env : NetEnv) (a h : String) (p : Nat)
    (f t u pw : String) (hk : MailAuthHook)
    (hok : (NewMailAuthHook env a h p f t u pw).hook = .ok hk) :
    hk.From.isSome = true ∧ hk.To.isSome = true ∧ hk.AppName = a ∧ hk.Host = h ∧
    hk.Port = p ∧ hk.Username = u ∧ hk.Password = pw ∧
    (∀ (entry : Entry) (stack : List Frame) (se : Option GoError),
      (mailAuthHookFire hk entry stack se).isSome = true) := by
  unfold NewMailAuthHook at hok
  by_cases hpr : env.probeOk = true
  · rw [if_pos hpr] at hok
    cases hpf : parseAddress f with
    | error e1 => rw [hpf] at hok; simp at hok
    | ok s1 =>
      rw [hpf] at hok
      cases hpt : parseAddress t with
      | error e2 => rw [hpt] at hok; simp at hok
      | ok s2 =>
        rw [hpt] at hok
        dsimp only at hok
        injection hok with hok2
        subst hok2
        refine ⟨rfl, rfl, rfl, rfl, rfl, rfl, rfl, ?_⟩
        intro entry stack se
        rfl
  · rw [if_neg hpr] at hok
    simp at hok

/-- Witness for C10 at the concrete construction. -/
theorem newMailAuthHook_fields_safe_w :
    authHook0.From.isSome = true ∧ authHook0.To.isSome = true ∧
    authHook0.AppName = "app" ∧ authHook0.Host = "h" ∧ authHook0.Port = 25 ∧
    authHook0.Username = "u" ∧ authHook0.Password = "p" ∧
    (∀ (entry : Entry) (stack : List Frame) (se : Option GoError),
      (mailAuthHookFire authHook0 entry stack se).isSome = true) :=
  newMailAuthHook_fields_safe envUp "app" "h" 25 "a@b" "c@d" "u" "p" authHook0 rfl
